import Mathlib

/-!
# cocaine-core: Raft configuration aggregate, eblob storage wrapper, timed driver

A shallow embedding of three headers of the repository:

* `include/cocaine/detail/raft/configuration.hpp`: the per-node consensus state
  aggregate `configuration<Log, Cluster>`;
* `include/cocaine/dealer/storage/eblob.hpp`: the `eblob` wrapper around the `zbr::eblob`
  blob store;
* `include/cocaine/drivers/timed.hpp`: the timer handler `timed_driver_t::operator()`.

Mutable C++ objects become values that are passed in and returned; a member function that
can throw returns the outcome together with the object as it is left behind.
-/

namespace cocaine
namespace raft

/-- The C++ `uint64_t` of the counters. The class only stores, copies and returns these
values and never computes with them, so they are embedded as natural numbers. -/
abbrev uint64_t := Nat

/-- The class `configuration<Log, Cluster>`: its six private members, in declaration order.
The type `node_id_t` comes from `forwards.hpp` and is a parameter here, like the two template
arguments. -/
structure configuration (node_id_t Log Cluster : Type) where
  m_id : node_id_t
  m_cluster : Cluster
  m_log : Log
  m_current_term : uint64_t
  m_commit_index : uint64_t
  m_last_applied : uint64_t

variable {node_id_t Log Cluster : Type}

/-- The constructor `configuration(id, cluster, log, term, commit_index, last_applied)`:
a member initialiser list and an empty body. -/
def configuration.construct (id : node_id_t) (cluster : Cluster) (log : Log)
    (term commit_index last_applied : uint64_t) : configuration node_id_t Log Cluster :=
  { m_id := id
    m_cluster := cluster
    m_log := log
    m_current_term := term
    m_commit_index := commit_index
    m_last_applied := last_applied }

/-- The same constructor called with an id and a cluster only: the defaulted arguments are
`log_type()`, written `default`, and `0` for the three counters. -/
def configuration.construct_defaulted [Inhabited Log] (id : node_id_t) (cluster : Cluster) :
    configuration node_id_t Log Cluster :=
  configuration.construct id cluster default 0 0 0

/-- The move constructor `configuration(configuration&& other)`: the value of the new object.
The three class-type members are moved and the three counters are copied; the members of
`other` are left in the state their own move constructors leave them in, which the class
does not look at again. -/
def configuration.move_construct (other : configuration node_id_t Log Cluster) :
    configuration node_id_t Log Cluster :=
  { m_id := other.m_id
    m_cluster := other.m_cluster
    m_log := other.m_log
    m_current_term := other.m_current_term
    m_commit_index := other.m_commit_index
    m_last_applied := other.m_last_applied }

/-- The move assignment `operator=(configuration&& other)` on a target distinct from `other`:
six member-wise assignments, then `return *this`. The result is the target afterwards. -/
def configuration.move_assign (self other : configuration node_id_t Log Cluster) :
    configuration node_id_t Log Cluster :=
  let s1 := { self with m_id := other.m_id }
  let s2 := { s1 with m_cluster := other.m_cluster }
  let s3 := { s2 with m_log := other.m_log }
  let s4 := { s3 with m_current_term := other.m_current_term }
  let s5 := { s4 with m_commit_index := other.m_commit_index }
  { s5 with m_last_applied := other.m_last_applied }

/-- The accessor `id()`. -/
def configuration.id (c : configuration node_id_t Log Cluster) : node_id_t := c.m_id

/-- The accessor `cluster()`. -/
def configuration.cluster (c : configuration node_id_t Log Cluster) : Cluster := c.m_cluster

/-- The accessor `log()`. -/
def configuration.log (c : configuration node_id_t Log Cluster) : Log := c.m_log

/-- The accessor `current_term()`. -/
def configuration.current_term (c : configuration node_id_t Log Cluster) : uint64_t :=
  c.m_current_term

/-- The setter `set_current_term(value)`: a single assignment, no test, no throw. -/
def configuration.set_current_term (c : configuration node_id_t Log Cluster) (value : uint64_t) :
    configuration node_id_t Log Cluster :=
  { c with m_current_term := value }

/-- The accessor `commit_index()`. -/
def configuration.commit_index (c : configuration node_id_t Log Cluster) : uint64_t :=
  c.m_commit_index

/-- The setter `set_commit_index(value)`: a single assignment, no test, no throw. -/
def configuration.set_commit_index (c : configuration node_id_t Log Cluster) (value : uint64_t) :
    configuration node_id_t Log Cluster :=
  { c with m_commit_index := value }

/-- The accessor `last_applied()`. -/
def configuration.last_applied (c : configuration node_id_t Log Cluster) : uint64_t :=
  c.m_last_applied

/-- The setter `set_last_applied(value)`: a single assignment, no test, no throw. -/
def configuration.set_last_applied (c : configuration node_id_t Log Cluster) (value : uint64_t) :
    configuration node_id_t Log Cluster :=
  { c with m_last_applied := value }

/-- One call of one of the three setters of the public interface. -/
inductive setter_call where
  | set_current_term (value : uint64_t)
  | set_commit_index (value : uint64_t)
  | set_last_applied (value : uint64_t)
  deriving DecidableEq, Repr

/-- Perform one setter call. -/
def configuration.call (c : configuration node_id_t Log Cluster) :
    setter_call → configuration node_id_t Log Cluster
  | .set_current_term v => c.set_current_term v
  | .set_commit_index v => c.set_commit_index v
  | .set_last_applied v => c.set_last_applied v

/-- The successive values `current_term()` returns while a finite sequence of setter calls
is performed, first call first: before the first call and after each call. -/
def configuration.terms (c : configuration node_id_t Log Cluster) :
    List setter_call → List uint64_t
  | [] => [c.current_term]
  | k :: rest => c.current_term :: (c.call k).terms rest

/-- Every `set_current_term(v)` of the sequence is made with `v` at least the term the
configuration holds at the moment of the call. -/
def configuration.term_guarded (c : configuration node_id_t Log Cluster) :
    List setter_call → Bool
  | [] => true
  | .set_current_term v :: rest =>
      decide (c.current_term ≤ v) && (c.call (.set_current_term v)).term_guarded rest
  | k :: rest => (c.call k).term_guarded rest

/-- The predicate `last_applied() <= commit_index() <= log().last_index()`, with the
`last_index` of the `Log` template argument as a parameter. -/
def configuration.index_invariant (last_index : Log → uint64_t)
    (c : configuration node_id_t Log Cluster) : Prop :=
  c.last_applied ≤ c.commit_index ∧ c.commit_index ≤ last_index c.log

/-- The predicate is decided by comparing the three numbers. -/
instance configuration.index_invariant_decidable (last_index : Log → uint64_t)
    (c : configuration node_id_t Log Cluster) : Decidable (c.index_invariant last_index) :=
  inferInstanceAs (Decidable (c.last_applied ≤ c.commit_index ∧ c.commit_index ≤ last_index c.log))

/-- Modelled from the spec: a log entry `{index, term, command}`; the log classes that
instantiate `Log` are not among the sources. -/
structure log_entry where
  index : uint64_t
  term : uint64_t
  command : String
  deriving DecidableEq, Repr

/-- Modelled from the spec: the log, an ordered sequence of entries (the `Log` template
argument is not among the sources). -/
structure spec_log where
  entries : List log_entry
  deriving DecidableEq, Repr

/-- Modelled from the spec: `last_index()` of the log, the index of its last entry, and 0,
"no entry", for a log without entries (the `Log` template argument is not among the
sources). -/
def spec_log.last_index (l : spec_log) : uint64_t :=
  match l.entries.getLast? with
  | some e => e.index
  | none => 0

/-- Modelled from the spec: `log_type()`, the log without entries. -/
instance : Inhabited spec_log := ⟨⟨[]⟩⟩

/-- A log of three entries, appended in terms 1, 1 and 4. -/
def sample_log : spec_log :=
  ⟨[⟨1, 1, "set x"⟩, ⟨2, 1, "set y"⟩, ⟨3, 4, "del x"⟩]⟩

/-- A configuration of a node in its fifth term: two entries committed, one applied. -/
def sample_configuration : configuration String spec_log (List String) :=
  configuration.construct "node-a:10053" ["node-a:10053", "node-b:10053", "node-c:10053"]
    sample_log 5 2 1

/-- A second configuration, from an earlier term and with an empty log. -/
def stale_configuration : configuration String spec_log (List String) :=
  configuration.construct "node-b:10053" ["node-b:10053"] default 2 0 0

end raft
end cocaine

namespace cocaine
namespace dealer

/-- What leaves a member function of the wrapper by `throw`: the wrapper's own
`cocaine::dealer::error` with its message, or whatever a call into `zbr::eblob` threw,
which the wrapper has no handler for and lets through. -/
inductive thrown (E : Type) where
  | error (what : String)
  | storage (e : E)
  deriving DecidableEq, Repr

/-- The part of the library class `zbr::eblob` (header `eblob/eblob.hpp`, outside the
repository) that the wrapper calls, as a parameter: `S` is the state of the blob store,
`K` the type `eblob_key`, `E` what a library call may throw. Every call returns its outcome
and the store as it leaves it. `BLOB_DISK_CTL_OVERWRITE` is the library's flag constant. -/
structure zbr_eblob (S K E : Type) where
  write_hashed : S → String → String → Nat → Nat → Int → Except E Unit × S
  read_hashed : S → String → Nat → Nat → Int → Except E String × S
  key : S → String → Except E K × S
  remove_all : S → K → Except E Unit × S
  remove_hashed : S → String → Int → Except E Unit × S
  elements : S → Except E Nat × S
  BLOB_DISK_CTL_OVERWRITE : Nat

/-- The class `eblob`: its path and the shared pointer `storage_`, which is null (`none`)
until `create_eblob` resets it. The two loggers and the iteration callback take no part in
the member functions embedded here. -/
structure eblob (S : Type) where
  path_ : String
  storage_ : Option S

variable {S K E : Type}

/-- The default constructor `eblob() {}`: every member default-constructed, so `storage_`
is a null pointer. -/
def eblob.eblob_default : eblob S :=
  { path_ := ""
    storage_ := none }

/-- The outcome of a library call as the outcome of the wrapper's member function that
made it: a library exception passes through unchanged. -/
def through (r : Except E α) : Except (thrown E) α :=
  match r with
  | .ok a => .ok a
  | .error e => .error (.storage e)

/-- The member `write(const std::string& key, const std::string& value, int column)`.
`fn` is the expansion of `BOOST_CURRENT_FUNCTION` in this overload. -/
def eblob.write (B : zbr_eblob S K E) (fn : String) (self : eblob S)
    (key value : String) (column : Int) : Except (thrown E) Unit × eblob S :=
  match self.storage_ with
  | none =>
      (.error (.error ("empty eblob storage object at " ++ fn
        ++ (" key: " ++ key ++ " column: " ++ toString column))), self)
  | some st =>
      if column < 0 then
        (.error (.error ("bad column index at " ++ fn
          ++ (" key: " ++ key ++ " column: " ++ toString column))), self)
      else
        let r := B.write_hashed st key value 0 B.BLOB_DISK_CTL_OVERWRITE column
        (through r.1, { self with storage_ := some r.2 })

/-- The `size` bytes at address `data` of the memory `mem`, as the constructor
`std::string(first, last)` copies them. -/
def bytes_at (mem : Nat → Char) (data size : Nat) : String :=
  String.mk ((List.range size).map (fun i => mem (data + i)))

/-- The member `write(const std::string& key, void* data, size_t size, int column)`.
`fn` is the expansion of `BOOST_CURRENT_FUNCTION` in this overload; `mem` is the memory
the pointer `data` points into. -/
def eblob.write_data (B : zbr_eblob S K E) (fn : String) (self : eblob S)
    (key : String) (mem : Nat → Char) (data size : Nat) (column : Int) :
    Except (thrown E) Unit × eblob S :=
  match self.storage_ with
  | none =>
      (.error (.error ("empty eblob storage object at " ++ fn
        ++ (" key: " ++ key ++ " column: " ++ toString column))), self)
  | some st =>
      if column < 0 then
        (.error (.error ("bad column index at " ++ fn
          ++ (" key: " ++ key ++ " column: " ++ toString column))), self)
      else
        let value := bytes_at mem data size
        let r := B.write_hashed st key value 0 B.BLOB_DISK_CTL_OVERWRITE column
        (through r.1, { self with storage_ := some r.2 })

/-- The member `read(const std::string& key, int column)`. -/
def eblob.read (B : zbr_eblob S K E) (fn : String) (self : eblob S)
    (key : String) (column : Int) : Except (thrown E) String × eblob S :=
  match self.storage_ with
  | none =>
      (.error (.error ("empty eblob storage object at " ++ fn
        ++ (" key: " ++ key ++ " column: " ++ toString column))), self)
  | some st =>
      let r := B.read_hashed st key 0 0 column
      (through r.1, { self with storage_ := some r.2 })

/-- The member `remove_all(const std::string& key)`: the key is hashed into an
`eblob_key` by the store, then every column of that key is removed. -/
def eblob.remove_all (B : zbr_eblob S K E) (fn : String) (self : eblob S)
    (key : String) : Except (thrown E) Unit × eblob S :=
  match self.storage_ with
  | none =>
      (.error (.error ("empty eblob storage object at " ++ fn ++ (" key: " ++ key))), self)
  | some st =>
      let k := B.key st key
      match k.1 with
      | .error e => (.error (.storage e), { self with storage_ := some k.2 })
      | .ok ekey =>
          let r := B.remove_all k.2 ekey
          (through r.1, { self with storage_ := some r.2 })

/-- The member `remove(const std::string& key, int column)`. -/
def eblob.remove (B : zbr_eblob S K E) (fn : String) (self : eblob S)
    (key : String) (column : Int) : Except (thrown E) Unit × eblob S :=
  match self.storage_ with
  | none =>
      (.error (.error ("empty eblob storage object at " ++ fn
        ++ (" key: " ++ key ++ " column: " ++ toString column))), self)
  | some st =>
      let r := B.remove_hashed st key column
      (through r.1, { self with storage_ := some r.2 })

/-- The member `items_count()`. -/
def eblob.items_count (B : zbr_eblob S K E) (fn : String) (self : eblob S) :
    Except (thrown E) Nat × eblob S :=
  match self.storage_ with
  | none => (.error (.error ("empty eblob storage object at " ++ fn)), self)
  | some st =>
      let r := B.elements st
      (through r.1, { self with storage_ := some r.2 })

/-- The wrapper itself threw: the outcome is a `cocaine::dealer::error`. -/
def raised_by_wrapper (r : Except (thrown E) α) : Bool :=
  match r with
  | .error (.error _) => true
  | _ => false

/-- The member function did not return normally. -/
def raised (r : Except (thrown E) α) : Bool :=
  match r with
  | .error _ => true
  | .ok _ => false

/-- One call received by the blob store. -/
inductive storage_call where
  | write_hashed (key value : String) (offset flags : Nat) (column : Int)
  | read_hashed (key : String) (offset size : Nat) (column : Int)
  | key (key : String)
  | remove_all (ekey : String)
  | remove_hashed (key : String) (column : Int)
  | elements
  deriving DecidableEq, Repr

/-- A blob store without I/O: its state is the list of the calls it has received, oldest
first; no call fails, reads return `stored`, the key of a string is the string, the
store reports `count` elements and the overwrite flag has the value `overwrite`. -/
def recording_store (stored : String) (count overwrite : Nat) :
    zbr_eblob (List storage_call) String Empty where
  write_hashed := fun s k v o f c => (.ok (), s ++ [.write_hashed k v o f c])
  read_hashed := fun s k o n c => (.ok stored, s ++ [.read_hashed k o n c])
  key := fun s k => (.ok k, s ++ [.key k])
  remove_all := fun s k => (.ok (), s ++ [.remove_all k])
  remove_hashed := fun s k c => (.ok (), s ++ [.remove_hashed k c])
  elements := fun s => (.ok count, s ++ [.elements])
  BLOB_DISK_CTL_OVERWRITE := overwrite

/-- An eblob whose storage is the recording store with nothing recorded yet. -/
def sample_eblob : eblob (List storage_call) :=
  { path_ := "/var/spool/dealer/eblob"
    storage_ := some [] }

end dealer
end cocaine

namespace cocaine
namespace engine
namespace drivers

/-- A C++ exception in flight: a `std::runtime_error`, or an object of a class derived from
it, with the text `what()` returns, or an exception of a class `X` outside that hierarchy.
The handler `catch(const std::runtime_error& e)` takes the first kind only. -/
inductive cxx_exception (X : Type) where
  | runtime_error (what : String)
  | other (x : X)
  deriving DecidableEq, Repr

/-- What `timed_driver_t::operator()` calls outside the header, as a parameter (the classes
`lines::publication_t` and `engine_t` are not among the sources): `W` is the state of the
rest of the process, `P` a publication object, `G` the engine. Constructing a publication
gives the object; `enqueue` returns normally or throws; `abort` and `syslog` return. -/
structure lines_env (W P G X : Type) where
  publication_t : W → String → G → P × W
  enqueue : W → P → G → Except (cxx_exception X) Unit × W
  abort : W → P → String → W
  syslog : W → Int → String → W
  LOG_ERR : Int
  name : G → String

/-- The members of `driver_t` the handler reads: the engine and the method name. -/
structure timed_driver_t (G : Type) where
  m_engine : G
  m_method : String

variable {W P G X : Type}

/-- The timer handler `operator()(ev::periodic&, int)`: the outcome as the event loop sees
it, and the state of the rest of the process afterwards. -/
def timed_driver_t.fire (L : lines_env W P G X) (self : timed_driver_t G) (w : W) :
    Except (cxx_exception X) Unit × W :=
  let deferred := L.publication_t w self.m_method self.m_engine
  let r := L.enqueue deferred.2 deferred.1 self.m_engine
  match r.1 with
  | .ok _ => (.ok (), r.2)
  | .error (.runtime_error what) =>
      let w1 := L.syslog r.2 L.LOG_ERR
        ("driver [" ++ L.name self.m_engine ++ ":" ++ self.m_method
          ++ "]: failed to enqueue the invocation - " ++ what)
      (.ok (), L.abort w1 deferred.1 what)
  | .error (.other x) => (.error (.other x), r.2)

/-- The first step of the handler: the publication object it constructs and the state after
the construction. -/
def timed_driver_t.deferred (L : lines_env W P G X) (self : timed_driver_t G) (w : W) : P × W :=
  L.publication_t w self.m_method self.m_engine

/-- The second step of the handler: how `deferred->enqueue(m_engine)` ends, and the state
after it. -/
def timed_driver_t.enqueued (L : lines_env W P G X) (self : timed_driver_t G) (w : W) :
    Except (cxx_exception X) Unit × W :=
  L.enqueue (self.deferred L w).2 (self.deferred L w).1 self.m_engine

/-- The line the handler writes to the system log for a failure with text `what`. -/
def timed_driver_t.failure_line (L : lines_env W P G X) (self : timed_driver_t G)
    (what : String) : String :=
  "driver [" ++ L.name self.m_engine ++ ":" ++ self.m_method
    ++ "]: failed to enqueue the invocation - " ++ what

/-- One call made by the handler. -/
inductive driver_call where
  | publication_t (p : Nat) (method engine : String)
  | enqueue (p : Nat) (engine : String)
  | syslog (priority : Int) (text : String)
  | abort (p : Nat) (what : String)
  deriving DecidableEq, Repr

/-- A process that records the calls it receives, oldest first. A new publication is
numbered by the count of calls recorded before it; `enqueue` ends the way `outcome` says;
the engine is known by its name. -/
def recording_env (outcome : Except (cxx_exception String) Unit) :
    lines_env (List driver_call) Nat String String where
  publication_t := fun w m g => (w.length, w ++ [.publication_t w.length m g])
  enqueue := fun w p g => (outcome, w ++ [.enqueue p g])
  abort := fun w p what => w ++ [.abort p what]
  syslog := fun w pr text => w ++ [.syslog pr text]
  LOG_ERR := 3
  name := fun g => g

/-- A timed driver of the engine "rimz_app" that invokes the method "aggregate". -/
def sample_driver : timed_driver_t String :=
  { m_engine := "rimz_app"
    m_method := "aggregate" }

end drivers
end engine
end cocaine

namespace cocaine
namespace raft

variable {node_id_t Log Cluster : Type}

/-- The list of successive terms starts with the term held before the first call. -/
theorem configuration.terms_eq_cons (c : configuration node_id_t Log Cluster)
    (calls : List setter_call) : ∃ t, c.terms calls = c.current_term :: t := by
  cases calls with
  | nil => exact ⟨[], rfl⟩
  | cons k rest => exact ⟨(c.call k).terms rest, rfl⟩

/-- C1 (as amended): for every configuration `c` and every value `v < c.current_term()`,
`set_current_term(v)` returns a configuration whose `current_term()` is `v`, so the term has
gone down; the setter has no failure path. -/
theorem set_current_term_lower_stores (c : configuration node_id_t Log Cluster) (v : uint64_t)
    (h : v < c.current_term) :
    (c.set_current_term v).current_term = v ∧
      (c.set_current_term v).current_term < c.current_term := by
  have hv : (c.set_current_term v).current_term = v := rfl
  exact ⟨hv, by rw [hv]; exact h⟩

/-- C1, witness: the amended statement at the sample configuration (term 5) and `v = 3`. -/
theorem set_current_term_lower_stores_witness :
    (3 : uint64_t) < sample_configuration.current_term ∧
      (sample_configuration.set_current_term 3).current_term = 3 ∧
      (sample_configuration.set_current_term 3).current_term
        < sample_configuration.current_term :=
  ⟨by decide, set_current_term_lower_stores sample_configuration 3 (by decide)⟩

/-- C1, counterexample: the sample configuration holds term 5; `set_current_term(3)` is
a call with a lower value, and afterwards `current_term()` is 3. -/
theorem set_current_term_lower_counterexample :
    (3 : uint64_t) < sample_configuration.current_term ∧
      (sample_configuration.set_current_term 3).current_term = 3 := by
  decide

/-- C2 (as amended): for every configuration `c`, `set_commit_index(v)` with
`v < c.commit_index()` is accepted and leaves `commit_index()` equal to `v`, a lower value
than before; and, independently, `set_last_applied(w)` with `w < c.last_applied()` is
accepted and leaves `last_applied()` equal to `w`, a lower value than before. Neither
setter rejects a decrease. -/
theorem set_index_lower_stores (c : configuration node_id_t Log Cluster) (v w : uint64_t) :
    (v < c.commit_index →
        (c.set_commit_index v).commit_index = v ∧
          (c.set_commit_index v).commit_index < c.commit_index) ∧
      (w < c.last_applied →
        (c.set_last_applied w).last_applied = w ∧
          (c.set_last_applied w).last_applied < c.last_applied) := by
  have h1 : (c.set_commit_index v).commit_index = v := rfl
  have h2 : (c.set_last_applied w).last_applied = w := rfl
  exact ⟨fun hv => ⟨h1, by rw [h1]; exact hv⟩, fun hw => ⟨h2, by rw [h2]; exact hw⟩⟩

/-- C2, witness: each half of the amended statement on its own. On the sample configuration
(commit index 2, last applied 1) `set_commit_index(1)` and `set_last_applied(0)` each store
the lower value; and on a configuration with commit index 2 and last applied 0, where no
lower `last_applied` exists, `set_commit_index(1)` still stores 1. -/
theorem set_index_lower_stores_witness :
    ((sample_configuration.set_commit_index 1).commit_index = 1 ∧
        (sample_configuration.set_commit_index 1).commit_index
          < sample_configuration.commit_index) ∧
      ((sample_configuration.set_last_applied 0).last_applied = 0 ∧
        (sample_configuration.set_last_applied 0).last_applied
          < sample_configuration.last_applied) ∧
      ((sample_configuration.set_last_applied 0).last_applied = 0 ∧
        ((sample_configuration.set_last_applied 0).set_commit_index 1).commit_index = 1 ∧
        ((sample_configuration.set_last_applied 0).set_commit_index 1).commit_index
          < (sample_configuration.set_last_applied 0).commit_index) :=
  ⟨(set_index_lower_stores sample_configuration 1 0).1 (by decide),
    (set_index_lower_stores sample_configuration 1 0).2 (by decide),
    rfl,
    (set_index_lower_stores (sample_configuration.set_last_applied 0) 1 0).1 (by decide)⟩

/-- C2, counterexample: on the sample configuration (commit index 2, last applied 1),
`set_commit_index(1)` changes `commit_index()` to 1 and `set_last_applied(0)` changes
`last_applied()` to 0. -/
theorem set_index_lower_counterexample :
    ((1 : uint64_t) < sample_configuration.commit_index ∧
        (sample_configuration.set_commit_index 1).commit_index
          ≠ sample_configuration.commit_index) ∧
      ((0 : uint64_t) < sample_configuration.last_applied ∧
        (sample_configuration.set_last_applied 0).last_applied
          ≠ sample_configuration.last_applied) := by
  decide

/-- C3 (as amended): a constructed configuration satisfies
`last_applied() <= commit_index() <= log().last_index()` exactly when the constructor's
arguments do, which a configuration built from an id and a cluster alone always does;
`set_current_term` never changes whether the predicate holds; after `set_commit_index(v)` it
holds exactly when `last_applied() <= v <= log().last_index()`; after `set_last_applied(v)`
it holds exactly when `v <= commit_index() <= log().last_index()`. -/
theorem index_invariant_characterised [Inhabited Log] (last_index : Log → uint64_t)
    (id : node_id_t) (cluster : Cluster) (log : Log) (term commit_index last_applied : uint64_t)
    (c : configuration node_id_t Log Cluster) (v : uint64_t) :
    ((configuration.construct id cluster log term commit_index last_applied).index_invariant
        last_index ↔ last_applied ≤ commit_index ∧ commit_index ≤ last_index log) ∧
      (configuration.construct_defaulted id cluster :
        configuration node_id_t Log Cluster).index_invariant last_index ∧
      ((c.set_current_term v).index_invariant last_index ↔ c.index_invariant last_index) ∧
      ((c.set_commit_index v).index_invariant last_index ↔
        c.last_applied ≤ v ∧ v ≤ last_index c.log) ∧
      ((c.set_last_applied v).index_invariant last_index ↔
        v ≤ c.commit_index ∧ c.commit_index ≤ last_index c.log) := by
  refine ⟨Iff.rfl, ?_, Iff.rfl, Iff.rfl, Iff.rfl⟩
  exact ⟨Nat.le_refl 0, Nat.zero_le _⟩

/-- C3, at a concrete input: the sample configuration (last applied 1, log ending at
index 3) satisfies the predicate after `set_commit_index(3)`. -/
theorem index_invariant_characterised_witness :
    (sample_configuration.set_commit_index 3).index_invariant spec_log.last_index :=
  (index_invariant_characterised spec_log.last_index "node-a:10053" ["node-a:10053"]
    sample_log 5 2 1 sample_configuration 3).2.2.2.1.mpr (by decide)

/-- C3, counterexample: the constructor accepts commit index 1 with an empty log, and the
result violates the predicate; the sample configuration satisfies it, and it is violated
after `set_commit_index(7)` (the log ends at index 3) and after `set_last_applied(3)` (the
commit index is 2). -/
theorem index_invariant_counterexample :
    ¬ (configuration.construct "node-a:10053" ["node-a:10053"] (default : spec_log) 0 1 0
        ).index_invariant spec_log.last_index ∧
      sample_configuration.index_invariant spec_log.last_index ∧
      ¬ (sample_configuration.set_commit_index 7).index_invariant spec_log.last_index ∧
      ¬ (sample_configuration.set_last_applied 3).index_invariant spec_log.last_index := by
  simp [configuration.index_invariant, configuration.construct, sample_configuration,
    configuration.set_commit_index, configuration.set_last_applied, configuration.last_applied,
    configuration.commit_index, configuration.log, spec_log.last_index, sample_log, default]

end raft
end cocaine

namespace cocaine
namespace raft

variable {node_id_t Log Cluster : Type}

/-- C4 (as amended): for every configuration and every finite sequence of setter calls,
the successive values of `current_term()` are non-decreasing exactly when every
`set_current_term(v)` of the sequence is called with `v` at least the term held at that
moment; `set_commit_index` and `set_last_applied` leave `current_term()` as it is. -/
theorem terms_nondecreasing_iff_guarded (c : configuration node_id_t Log Cluster)
    (calls : List setter_call) (v : uint64_t) :
    (List.Chain' (fun a b => a ≤ b) (c.terms calls) ↔ c.term_guarded calls) ∧
      (c.set_commit_index v).current_term = c.current_term ∧
      (c.set_last_applied v).current_term = c.current_term := by
  refine ⟨?_, rfl, rfl⟩
  induction calls generalizing c with
  | nil => simp [configuration.terms, configuration.term_guarded]
  | cons k rest ih =>
    obtain ⟨t, ht⟩ := (c.call k).terms_eq_cons rest
    have hstep : List.Chain' (fun a b => a ≤ b) (c.terms (k :: rest)) ↔
        c.current_term ≤ (c.call k).current_term ∧ (c.call k).term_guarded rest := by
      rw [← ih (c.call k)]
      show List.Chain' _ (c.current_term :: (c.call k).terms rest) ↔ _
      rw [ht, List.chain'_cons]
    rw [hstep]
    cases k with
    | set_current_term w =>
      have hw : (c.call (.set_current_term w)).current_term = w := rfl
      simp [configuration.term_guarded, hw]
    | set_commit_index w =>
      exact ⟨fun h => h.2, fun h => ⟨Nat.le_refl _, h⟩⟩
    | set_last_applied w =>
      exact ⟨fun h => h.2, fun h => ⟨Nat.le_refl _, h⟩⟩

/-- C4, at a concrete input: from the sample configuration (term 5) the calls
`set_current_term(6)`, `set_commit_index(3)`, `set_last_applied(2)`, `set_current_term(6)`
are guarded and the successive terms 5, 6, 6, 6, 6 do not decrease. -/
theorem terms_nondecreasing_iff_guarded_witness :
    List.Chain' (fun a b => a ≤ b)
      (sample_configuration.terms
        [.set_current_term 6, .set_commit_index 3, .set_last_applied 2, .set_current_term 6]) :=
  (terms_nondecreasing_iff_guarded sample_configuration
    [.set_current_term 6, .set_commit_index 3, .set_last_applied 2, .set_current_term 6]
    0).1.mpr (by decide)

/-- C4, counterexample: from the sample configuration (term 5) the one-call sequence
`set_current_term(3)` gives the successive terms 5, 3, which is a decrease. -/
theorem terms_nondecreasing_counterexample :
    sample_configuration.terms [.set_current_term 3] = [5, 3] ∧
      ¬ List.Chain' (fun a b => a ≤ b) (sample_configuration.terms [.set_current_term 3]) := by
  have h : sample_configuration.terms [.set_current_term 3] = [5, 3] := by decide
  refine ⟨h, ?_⟩
  rw [h, List.chain'_pair]
  decide

/-- C5: each of the three setters, followed by its getter, returns the value that was set
(no call is refused), and the other five components of the configuration, `id()`,
`cluster()`, `log()` and the two remaining counters, are as they were. -/
theorem setter_getter_frame (c : configuration node_id_t Log Cluster) (v : uint64_t) :
    ((c.set_current_term v).current_term = v ∧
        (c.set_current_term v).id = c.id ∧
        (c.set_current_term v).cluster = c.cluster ∧
        (c.set_current_term v).log = c.log ∧
        (c.set_current_term v).commit_index = c.commit_index ∧
        (c.set_current_term v).last_applied = c.last_applied) ∧
      ((c.set_commit_index v).commit_index = v ∧
        (c.set_commit_index v).id = c.id ∧
        (c.set_commit_index v).cluster = c.cluster ∧
        (c.set_commit_index v).log = c.log ∧
        (c.set_commit_index v).current_term = c.current_term ∧
        (c.set_commit_index v).last_applied = c.last_applied) ∧
      ((c.set_last_applied v).last_applied = v ∧
        (c.set_last_applied v).id = c.id ∧
        (c.set_last_applied v).cluster = c.cluster ∧
        (c.set_last_applied v).log = c.log ∧
        (c.set_last_applied v).current_term = c.current_term ∧
        (c.set_last_applied v).commit_index = c.commit_index) :=
  ⟨⟨rfl, rfl, rfl, rfl, rfl, rfl⟩, ⟨rfl, rfl, rfl, rfl, rfl, rfl⟩,
    ⟨rfl, rfl, rfl, rfl, rfl, rfl⟩⟩

/-- C6: the constructor stores exactly its six arguments, and a configuration built from an
id and a cluster only has that id and cluster, term 0, commit index 0, last applied 0 and
the default-constructed log `log_type()`. -/
theorem construct_stores_arguments [Inhabited Log] (id : node_id_t) (cluster : Cluster)
    (log : Log) (term commit_index last_applied : uint64_t) :
    ((configuration.construct id cluster log term commit_index last_applied).id = id ∧
        (configuration.construct id cluster log term commit_index last_applied).cluster
          = cluster ∧
        (configuration.construct id cluster log term commit_index last_applied).log = log ∧
        (configuration.construct id cluster log term commit_index last_applied).current_term
          = term ∧
        (configuration.construct id cluster log term commit_index last_applied).commit_index
          = commit_index ∧
        (configuration.construct id cluster log term commit_index last_applied).last_applied
          = last_applied) ∧
      ((configuration.construct_defaulted id cluster :
          configuration node_id_t Log Cluster).id = id ∧
        (configuration.construct_defaulted id cluster :
          configuration node_id_t Log Cluster).cluster = cluster ∧
        (configuration.construct_defaulted id cluster :
          configuration node_id_t Log Cluster).log = default ∧
        (configuration.construct_defaulted id cluster :
          configuration node_id_t Log Cluster).current_term = 0 ∧
        (configuration.construct_defaulted id cluster :
          configuration node_id_t Log Cluster).commit_index = 0 ∧
        (configuration.construct_defaulted id cluster :
          configuration node_id_t Log Cluster).last_applied = 0) :=
  ⟨⟨rfl, rfl, rfl, rfl, rfl, rfl⟩, ⟨rfl, rfl, rfl, rfl, rfl, rfl⟩⟩

/-- C8: after move construction from `s` the new object has the `id`, `cluster`, `log`,
`current_term`, `commit_index` and `last_applied` that `s` held; after move assignment of
`s` to a target `t` the target has those six values too, whatever `t` held before, so
nothing of `t` survives and no comparison of terms or indices is made. -/
theorem move_transfers_aggregate (s t : configuration node_id_t Log Cluster) :
    ((configuration.move_construct s).id = s.id ∧
        (configuration.move_construct s).cluster = s.cluster ∧
        (configuration.move_construct s).log = s.log ∧
        (configuration.move_construct s).current_term = s.current_term ∧
        (configuration.move_construct s).commit_index = s.commit_index ∧
        (configuration.move_construct s).last_applied = s.last_applied) ∧
      ((t.move_assign s).id = s.id ∧
        (t.move_assign s).cluster = s.cluster ∧
        (t.move_assign s).log = s.log ∧
        (t.move_assign s).current_term = s.current_term ∧
        (t.move_assign s).commit_index = s.commit_index ∧
        (t.move_assign s).last_applied = s.last_applied) ∧
      t.move_assign s = s :=
  ⟨⟨rfl, rfl, rfl, rfl, rfl, rfl⟩, ⟨rfl, rfl, rfl, rfl, rfl, rfl⟩, rfl⟩

/-- C8, at a concrete input: assigning the stale configuration (term 2, indices 0) to the
sample configuration (term 5, commit index 2, last applied 1) leaves the target with term 2
and indices 0, lower than its old ones. -/
theorem move_transfers_aggregate_witness :
    (sample_configuration.move_assign stale_configuration).current_term = 2 ∧
      (sample_configuration.move_assign stale_configuration).commit_index = 0 ∧
      (sample_configuration.move_assign stale_configuration).last_applied = 0 ∧
      (sample_configuration.move_assign stale_configuration).id = "node-b:10053" := by
  have h := move_transfers_aggregate stale_configuration sample_configuration
  refine ⟨?_, ?_, ?_, ?_⟩
  · rw [h.2.1.2.2.2.1]; rfl
  · rw [h.2.1.2.2.2.2.1]; rfl
  · rw [h.2.1.2.2.2.2.2]; rfl
  · rw [h.2.1.1]; rfl

end raft
end cocaine

namespace cocaine
namespace dealer

variable {S K E : Type}

/-- The outcome of a library call, passed through, is never the wrapper's own error. -/
theorem not_raised_by_wrapper_through {α : Type} (r : Except E α) :
    ¬ raised_by_wrapper (through r) = true := by
  cases r <;> simp [through, raised_by_wrapper]

/-- The outcome of a library call, passed through, is a raise exactly when the library
call threw. -/
theorem raised_through_iff {α : Type} (r : Except E α) :
    raised (through r) = true ↔ ∃ e, r = .error e := by
  cases r with
  | ok a => simp [raised, through]
  | error e => simp [raised, through]

/-- C7: `write(key, value, column)` throws its own error exactly when `storage_` is null
(as in a default-constructed eblob) or `column < 0`, and then the object, storage included,
is as before; otherwise it issues exactly the one call
`write_hashed(key, value, 0, BLOB_DISK_CTL_OVERWRITE, column)` and ends as that call ends.
Over a store whose write does not throw, `write` fails exactly when `storage_` is null or
`column < 0`. The pointer overload does what the string overload does with the `size` bytes
at `data`: it leaves the same object, throws its own error in the same cases, returns the
same outcome whenever the store is reached, and differs only in the function name that
`BOOST_CURRENT_FUNCTION` puts into the text of the error. -/
theorem write_raises_iff (B : zbr_eblob S K E) (fn fn_data : String) (self : eblob S)
    (key value : String) (mem : Nat → Char) (data size : Nat) (column : Int) :
    (raised_by_wrapper (self.write B fn key value column).1 ↔
        self.storage_ = none ∨ column < 0) ∧
      raised_by_wrapper ((eblob.eblob_default : eblob S).write B fn key value column).1 ∧
      (self.storage_ = none ∨ column < 0 → (self.write B fn key value column).2 = self) ∧
      (∀ st, self.storage_ = some st → 0 ≤ column →
        self.write B fn key value column =
          (through (B.write_hashed st key value 0 B.BLOB_DISK_CTL_OVERWRITE column).1,
            { self with
              storage_ :=
                some (B.write_hashed st key value 0 B.BLOB_DISK_CTL_OVERWRITE column).2 })) ∧
      ((∀ st, (B.write_hashed st key value 0 B.BLOB_DISK_CTL_OVERWRITE column).1 = .ok ()) →
        (raised (self.write B fn key value column).1 ↔ self.storage_ = none ∨ column < 0)) ∧
      (self.write_data B fn_data key mem data size column =
          self.write B fn_data key (bytes_at mem data size) column ∧
        (self.write_data B fn_data key mem data size column).2 =
          (self.write B fn key (bytes_at mem data size) column).2 ∧
        raised_by_wrapper (self.write_data B fn_data key mem data size column).1 =
          raised_by_wrapper (self.write B fn key (bytes_at mem data size) column).1 ∧
        (∀ st, self.storage_ = some st → 0 ≤ column →
          self.write_data B fn_data key mem data size column =
            self.write B fn key (bytes_at mem data size) column)) := by
  refine ⟨?_, ?_, ?_, ?_, ?_, rfl, ?_, ?_, ?_⟩
  · cases hs : self.storage_ with
    | none => simp [eblob.write, hs, raised_by_wrapper]
    | some st =>
      by_cases hc : column < 0
      · simp [eblob.write, hs, hc, raised_by_wrapper]
      · simp only [eblob.write, hs, hc, if_false, false_or, iff_false, reduceCtorEq]
        exact not_raised_by_wrapper_through _
  · simp [eblob.write, eblob.eblob_default, raised_by_wrapper]
  · intro h
    cases hs : self.storage_ with
    | none => simp [eblob.write, hs]
    | some st =>
      have hc : column < 0 := by
        rcases h with h | h
        · rw [hs] at h; cases h
        · exact h
      simp [eblob.write, hs, hc]
  · intro st hs hc
    have hc2 : ¬ column < 0 := not_lt.mpr hc
    simp [eblob.write, hs, hc2]
  · intro hok
    cases hs : self.storage_ with
    | none => simp [eblob.write, hs, raised]
    | some st =>
      by_cases hc : column < 0
      · simp [eblob.write, hs, hc, raised]
      · simp only [eblob.write, hs, hc, if_false, false_or, iff_false, reduceCtorEq]
        rw [raised_through_iff, hok st]
        simp
  · cases hs : self.storage_ with
    | none => simp [eblob.write, eblob.write_data, hs]
    | some st =>
      by_cases hc : column < 0
      · simp [eblob.write, eblob.write_data, hs, hc]
      · simp [eblob.write, eblob.write_data, hs, hc]
  · cases hs : self.storage_ with
    | none => simp [eblob.write, eblob.write_data, hs, raised_by_wrapper]
    | some st =>
      by_cases hc : column < 0
      · simp [eblob.write, eblob.write_data, hs, hc, raised_by_wrapper]
      · simp [eblob.write, eblob.write_data, hs, hc]
  · intro st hs hc
    have hc2 : ¬ column < 0 := not_lt.mpr hc
    simp [eblob.write, eblob.write_data, hs, hc2]

/-- C7, at concrete inputs over the recording store: a write to column 0 returns normally
and the store has received exactly one call, the overwrite-mode write; a write to column -1
and a write through a default-constructed eblob throw the wrapper's error, and the store has
received nothing. -/
theorem write_raises_iff_witness :
    sample_eblob.write (recording_store "" 0 16) "write" "job-1" "payload" 0 =
        (.ok (), { sample_eblob with
          storage_ := some [.write_hashed "job-1" "payload" 0 16 0] }) ∧
      sample_eblob.write (recording_store "" 0 16) "write" "job-1" "payload" (-1) =
        (.error (.error "bad column index at write key: job-1 column: -1"), sample_eblob) ∧
      (eblob.eblob_default.write (recording_store "" 0 16) "write" "job-1" "payload" 0).1 =
        .error (.error "empty eblob storage object at write key: job-1 column: 0") ∧
      sample_eblob.write_data (recording_store "" 0 16) "write" "job-1"
          (fun a => if a = 100 then 'o' else 'k') 100 2 0 =
        (.ok (), { sample_eblob with
          storage_ := some [.write_hashed "job-1" "ok" 0 16 0] }) := by
  have h := write_raises_iff (recording_store "" 0 16) "write" "write" sample_eblob "job-1"
    "payload" (fun a => if a = 100 then 'o' else 'k') 100 2 0
  refine ⟨?_, ?_, ?_, ?_⟩
  · rw [h.2.2.2.1 [] rfl (le_refl 0)]; rfl
  · rfl
  · rfl
  · rfl

end dealer
end cocaine

namespace cocaine
namespace dealer

variable {S K E : Type}

/-- C9: each of `read`, `remove`, `remove_all` and `items_count` throws the wrapper's own
error exactly when `storage_` is null, and then the object is as before, so no call reaches
a store. On an initialised eblob `read` and `remove` test nothing: for every column,
negative ones included, `read` ends as `read_hashed(key, 0, 0, column)` and `remove` as
`remove_hashed(key, column)` with that same column; `items_count` ends as `elements()`;
`remove_all` hashes the key with `key(key, ekey)` and, when that returns, ends as
`remove_all(ekey)`. -/
theorem unchecked_operations_raise_iff (B : zbr_eblob S K E) (fn : String) (self : eblob S)
    (key : String) (column : Int) :
    ((raised_by_wrapper (self.read B fn key column).1 ↔ self.storage_ = none) ∧
        (raised_by_wrapper (self.remove B fn key column).1 ↔ self.storage_ = none) ∧
        (raised_by_wrapper (self.remove_all B fn key).1 ↔ self.storage_ = none) ∧
        (raised_by_wrapper (self.items_count B fn).1 ↔ self.storage_ = none)) ∧
      (self.storage_ = none →
        (self.read B fn key column).2 = self ∧
        (self.remove B fn key column).2 = self ∧
        (self.remove_all B fn key).2 = self ∧
        (self.items_count B fn).2 = self) ∧
      (∀ st, self.storage_ = some st →
        self.read B fn key column =
          (through (B.read_hashed st key 0 0 column).1,
            { self with storage_ := some (B.read_hashed st key 0 0 column).2 }) ∧
        self.remove B fn key column =
          (through (B.remove_hashed st key column).1,
            { self with storage_ := some (B.remove_hashed st key column).2 }) ∧
        self.items_count B fn =
          (through (B.elements st).1, { self with storage_ := some (B.elements st).2 }) ∧
        (∀ e, (B.key st key).1 = .error e →
          self.remove_all B fn key =
            (.error (.storage e), { self with storage_ := some (B.key st key).2 })) ∧
        (∀ ekey, (B.key st key).1 = .ok ekey →
          self.remove_all B fn key =
            (through (B.remove_all (B.key st key).2 ekey).1,
              { self with storage_ := some (B.remove_all (B.key st key).2 ekey).2 }))) := by
  refine ⟨?_, ?_, ?_⟩
  · cases hs : self.storage_ with
    | none =>
      simp [eblob.read, eblob.remove, eblob.remove_all, eblob.items_count, hs,
        raised_by_wrapper]
    | some st =>
      simp only [eblob.read, eblob.remove, eblob.items_count, hs, iff_false, reduceCtorEq]
      refine ⟨not_raised_by_wrapper_through _, not_raised_by_wrapper_through _, ?_,
        not_raised_by_wrapper_through _⟩
      simp only [eblob.remove_all, hs]
      cases hk : (B.key st key).1 with
      | error e => simp [raised_by_wrapper]
      | ok ekey => exact not_raised_by_wrapper_through (B.remove_all (B.key st key).2 ekey).1
  · intro hs
    simp [eblob.read, eblob.remove, eblob.remove_all, eblob.items_count, hs]
  · intro st hs
    refine ⟨?_, ?_, ?_, ?_, ?_⟩
    · simp [eblob.read, hs]
    · simp [eblob.remove, hs]
    · simp [eblob.items_count, hs]
    · intro e he
      simp [eblob.remove_all, hs, he]
    · intro ekey hk
      simp [eblob.remove_all, hs, hk]

/-- C9, at concrete inputs over the recording store: `read` and `remove` with column -7
return normally and the store receives that column; `remove_all` issues `key` and then
`remove_all`; `items_count` returns the store's count; all four throw the wrapper's error
through a default-constructed eblob. -/
theorem unchecked_operations_raise_iff_witness :
    sample_eblob.read (recording_store "payload" 4 16) "read" "job-1" (-7) =
        (.ok "payload", { sample_eblob with storage_ := some [.read_hashed "job-1" 0 0 (-7)] }) ∧
      sample_eblob.remove (recording_store "payload" 4 16) "remove" "job-1" (-7) =
        (.ok (), { sample_eblob with storage_ := some [.remove_hashed "job-1" (-7)] }) ∧
      sample_eblob.remove_all (recording_store "payload" 4 16) "remove_all" "job-1" =
        (.ok (), { sample_eblob with storage_ := some [.key "job-1", .remove_all "job-1"] }) ∧
      sample_eblob.items_count (recording_store "payload" 4 16) "items_count" =
        (.ok 4, { sample_eblob with storage_ := some [.elements] }) ∧
      eblob.eblob_default.read (recording_store "payload" 4 16) "read" "job-1" (-7) =
        (.error (.error "empty eblob storage object at read key: job-1 column: -7"),
          eblob.eblob_default) ∧
      eblob.eblob_default.remove (recording_store "payload" 4 16) "remove" "job-1" 2 =
        (.error (.error "empty eblob storage object at remove key: job-1 column: 2"),
          eblob.eblob_default) ∧
      eblob.eblob_default.remove_all (recording_store "payload" 4 16) "remove_all" "job-1" =
        (.error (.error "empty eblob storage object at remove_all key: job-1"),
          eblob.eblob_default) ∧
      eblob.eblob_default.items_count (recording_store "payload" 4 16) "items_count" =
        (.error (.error "empty eblob storage object at items_count"), eblob.eblob_default) := by
  have h := unchecked_operations_raise_iff (recording_store "payload" 4 16) "read"
    sample_eblob "job-1" (-7)
  refine ⟨?_, rfl, rfl, rfl, rfl, rfl, rfl, rfl⟩
  rw [(h.2.2 [] rfl).1]
  rfl

end dealer
end cocaine

namespace cocaine
namespace engine
namespace drivers

variable {W P G X : Type}

/-- C10: one firing of the timer constructs one publication for the driver's method and
engine and calls `enqueue` on it. If `enqueue` throws a `std::runtime_error` with text `m`,
the handler writes the failure line to the system log, calls `abort(m)` on that same
publication and returns normally; if `enqueue` returns, the handler returns at once, with
no `abort` and no log line. In no case does a `std::runtime_error` leave the handler; an
exception of another class passes through with nothing further called. -/
theorem fire_enqueues_then_aborts (L : lines_env W P G X) (self : timed_driver_t G) (w : W) :
    (self.deferred L w = L.publication_t w self.m_method self.m_engine ∧
        self.enqueued L w =
          L.enqueue (self.deferred L w).2 (self.deferred L w).1 self.m_engine) ∧
      (∀ m, (self.enqueued L w).1 = .error (.runtime_error m) →
        self.fire L w =
          (.ok (),
            L.abort (L.syslog (self.enqueued L w).2 L.LOG_ERR (self.failure_line L m))
              (self.deferred L w).1 m)) ∧
      ((self.enqueued L w).1 = .ok () → self.fire L w = (.ok (), (self.enqueued L w).2)) ∧
      (∀ x, (self.enqueued L w).1 = .error (.other x) →
        self.fire L w = (.error (.other x), (self.enqueued L w).2)) ∧
      (∀ m, (self.fire L w).1 ≠ .error (.runtime_error m)) := by
  have hfire : self.fire L w =
      match (self.enqueued L w).1 with
      | .ok _ => (.ok (), (self.enqueued L w).2)
      | .error (.runtime_error what) =>
          (.ok (), L.abort (L.syslog (self.enqueued L w).2 L.LOG_ERR (self.failure_line L what))
            (self.deferred L w).1 what)
      | .error (.other x) => (.error (.other x), (self.enqueued L w).2) := rfl
  refine ⟨⟨rfl, rfl⟩, ?_, ?_, ?_, ?_⟩
  · intro m hm
    rw [hfire, hm]
  · intro hok
    rw [hfire, hok]
  · intro x hx
    rw [hfire, hx]
  · intro m
    rw [hfire]
    cases h : (self.enqueued L w).1 with
    | ok u => simp
    | error e =>
      cases e with
      | runtime_error what => simp
      | other x => simp

/-- C10, at concrete inputs over the recording process: when `enqueue` throws
`runtime_error("queue is full")` the handler returns normally after exactly four calls, one
construction, one `enqueue`, one log line and one `abort` of publication 0 with that text;
when `enqueue` returns, the calls are the construction and the `enqueue` only. -/
theorem fire_enqueues_then_aborts_witness :
    sample_driver.fire (recording_env (.error (.runtime_error "queue is full"))) [] =
        (.ok (),
          [.publication_t 0 "aggregate" "rimz_app",
            .enqueue 0 "rimz_app",
            .syslog 3
              "driver [rimz_app:aggregate]: failed to enqueue the invocation - queue is full",
            .abort 0 "queue is full"]) ∧
      sample_driver.fire (recording_env (.ok ())) [] =
        (.ok (), [.publication_t 0 "aggregate" "rimz_app", .enqueue 0 "rimz_app"]) := by
  have h := fire_enqueues_then_aborts (recording_env (.error (.runtime_error "queue is full")))
    sample_driver []
  refine ⟨?_, rfl⟩
  rw [h.2.1 "queue is full" rfl]
  rfl

end drivers
end engine
end cocaine
